import Mathlib

/-
Verification of the crypto-pulse-mvp client-side dashboard scripts.

The repository is browser glue code: it fetches signals and alerts from a
backend, renders them, and manages a persisted session (bearer token and
user id in localStorage).  Each JavaScript function relevant to the claims
is embedded below as a pure Lean function: network interaction becomes an
explicit outcome parameter (the response the fetch inside the function
would observe), DOM rendering becomes an inductive view value, localStorage
becomes an explicit record threaded through, and `window.location`
changes become an explicit navigation effect value.

The repository contains several near-duplicate variants of the same screen;
each variant is embedded in its own namespace named after its source file:
  `ScriptsJS`       — src/scripts.js
  `StaticScriptsJS` — src/static/scripts.js
  `StaticAPIJS`     — src/static/api.js (the `API` object)
  `StaticUIJS`      — src/static/ui.js
  `Part001`         — src/unnamed/part_001 (a ui.js variant with bulk alerts)
  `Part002`         — src/unnamed/part_002 (a ui.js variant with audio cue)
-/

-- ==========================================================
-- Common data model
-- ==========================================================

/-- The two persisted session keys used across the repository's pages
(`access_token` / `supabase_token`, and `user_id`).  All variants share the
browser's localStorage keyspace of the same origin. -/
structure Storage where
  access_token : Option String
  user_id : Option String
deriving DecidableEq, Repr

/-- A client-side navigation effect: `location.reload()` or an assignment
to `window.location.href`. -/
inductive Nav where
  | reload
  | goto (page : String)
deriving DecidableEq, Repr

/-- A network request issued by the client, with the bearer token it
carries (if any). -/
structure Request where
  method : String
  endpoint : String
  bearer : Option String
deriving DecidableEq, Repr

/-- A signal record as consumed from `GET /api/signals`.
`detected_at` is modelled as a millisecond epoch timestamp. -/
structure Signal where
  asset : String
  timeframe : String
  signal_type : String
  detected_at : Int
deriving DecidableEq, Repr

/-- An alert record as consumed from `GET /api/my-alerts`. -/
structure Alert where
  id : Nat
  asset : String
  timeframe : String
  alert_type : String
  target_price : Option String
deriving DecidableEq, Repr

-- ==========================================================
-- JavaScript String.prototype.includes
-- ==========================================================

/-- Model of a character-list prefix test (needle is a prefix of hay). -/
def charsStartWith : List Char → List Char → Bool
  | _, [] => true
  | [], _ :: _ => false
  | h :: t, n :: ns => h == n && charsStartWith t ns

/-- Model of JavaScript `hay.includes(needle)` on character lists:
true iff needle occurs contiguously inside hay. -/
def charsContain : List Char → List Char → Bool
  | [], needle => charsStartWith [] needle
  | h :: t, needle => charsStartWith (h :: t) needle || charsContain t needle

/-- JavaScript `s.includes(sub)`. -/
def jsIncludes (s sub : String) : Bool :=
  charsContain s.toList sub.toList

theorem charsStartWith_iff (hay needle : List Char) :
    charsStartWith hay needle = true ↔ ∃ post, needle ++ post = hay := by
  induction hay generalizing needle with
  | nil =>
    cases needle with
    | nil => simp [charsStartWith]
    | cons n ns => simp [charsStartWith]
  | cons h t ih =>
    cases needle with
    | nil => simp [charsStartWith]
    | cons n ns =>
      simp only [charsStartWith, Bool.and_eq_true, beq_iff_eq, List.cons_append,
        List.cons.injEq]
      constructor
      · rintro ⟨heq, hrest⟩
        obtain ⟨post, hp⟩ := (ih ns).mp hrest
        exact ⟨post, heq.symm, hp⟩
      · rintro ⟨post, heq, hp⟩
        exact ⟨heq.symm, (ih ns).mpr ⟨post, hp⟩⟩

theorem charsContain_iff (hay needle : List Char) :
    charsContain hay needle = true ↔ ∃ pre post, pre ++ (needle ++ post) = hay := by
  induction hay with
  | nil =>
    rw [charsContain, charsStartWith_iff]
    constructor
    · rintro ⟨post, hp⟩
      exact ⟨[], post, by simpa using hp⟩
    · rintro ⟨pre, post, hp⟩
      simp only [List.append_eq_nil] at hp
      exact ⟨[], by simp [hp.1, hp.2.1, hp.2.2]⟩
  | cons h t ih =>
    rw [charsContain, Bool.or_eq_true, charsStartWith_iff, ih]
    constructor
    · rintro (⟨post, hp⟩ | ⟨pre, post, hp⟩)
      · exact ⟨[], post, by simpa using hp⟩
      · exact ⟨h :: pre, post, by simp [hp]⟩
    · rintro ⟨pre, post, hp⟩
      cases pre with
      | nil => exact Or.inl ⟨post, by simpa using hp⟩
      | cons p ps =>
        simp only [List.cons_append, List.cons.injEq] at hp
        exact Or.inr ⟨ps, post, hp.2⟩

/-- The model `jsIncludes` agrees with mathematical substring occurrence. -/
theorem jsIncludes_iff (s sub : String) :
    jsIncludes s sub = true ↔
      ∃ pre post, pre ++ (sub.toList ++ post) = s.toList := by
  exact charsContain_iff s.toList sub.toList

/-- JavaScript `Response.ok`: status in the inclusive range 200..299. -/
def responseOk (status : Nat) : Bool :=
  200 ≤ status && status ≤ 299

-- ==========================================================
-- src/scripts.js  (JWT dashboard variant)
-- ==========================================================

namespace ScriptsJS

/-- JSON body of a my-alerts response after `response.json()`:
a well-formed alert array, an `{error: ...}` object, or a body on which
`.json()` (or the subsequent array iteration) throws. -/
inductive AlertsBody where
  | alerts (items : List Alert)
  | errorObj (msg : String)
  | malformed
deriving DecidableEq, Repr

/-- Outcome of the single `fetch` in `fetchAndDisplayAlerts`. -/
inductive MyAlertsOutcome where
  | networkError
  | response (status : Nat) (body : AlertsBody)
deriving DecidableEq, Repr

/-- Final content of the `alertsList` element. -/
inductive AlertsView where
  | notLoggedIn
  | authFailed
  | fetchError (msg : String)
  | connectionError
  | emptyList
  | table (items : List Alert)
deriving DecidableEq, Repr

/-- Model of `logout` in src/scripts.js: removes only the token key
(`localStorage.removeItem(TOKEN_STORAGE_KEY)`) and calls
`location.reload()`. -/
def logout (st : Storage) : Storage × Nav :=
  ({ st with access_token := none }, Nav.reload)

/-- The bearer-authenticated GET issued by `fetchAndDisplayAlerts`. -/
def myAlertsRequest (token : String) : Request :=
  { method := "GET", endpoint := "/api/my-alerts", bearer := some token }

/-- One invocation's visible effects: final view, final storage, the
navigation effect if any, and every network request issued (in order). -/
structure FetchAlertsResult where
  view : AlertsView
  storage : Storage
  nav : Option Nav
  calls : List Request
deriving DecidableEq, Repr

/-- Model of `fetchAndDisplayAlerts` in src/scripts.js: absent token renders the
not-logged-in row without a network call; 401/422 renders the auth-failed
row, calls `logout()` and returns; other non-ok statuses render the
backend error; a thrown parse/iteration error is caught and rendered as a
connection error. -/
def fetchAndDisplayAlerts (st : Storage) (outcome : MyAlertsOutcome) :
    FetchAlertsResult :=
  match st.access_token with
  | none => { view := .notLoggedIn, storage := st, nav := none, calls := [] }
  | some token =>
    let req := myAlertsRequest token
    match outcome with
    | .networkError =>
      { view := .connectionError, storage := st, nav := none, calls := [req] }
    | .response status body =>
      if status = 401 || status = 422 then
        { view := .authFailed, storage := (logout st).1,
          nav := some (logout st).2, calls := [req] }
      else if !responseOk status then
        match body with
        | .malformed =>
          { view := .connectionError, storage := st, nav := none, calls := [req] }
        | .errorObj msg =>
          { view := .fetchError msg, storage := st, nav := none, calls := [req] }
        | .alerts _ =>
          { view := .fetchError ("Server error"), storage := st, nav := none,
            calls := [req] }
      else
        match body with
        | .malformed =>
          { view := .connectionError, storage := st, nav := none, calls := [req] }
        | .errorObj _ =>
          { view := .connectionError, storage := st, nav := none, calls := [req] }
        | .alerts [] =>
          { view := .emptyList, storage := st, nav := none, calls := [req] }
        | .alerts items =>
          { view := .table items, storage := st, nav := none, calls := [req] }

/-- JSON body of a create-alert response: `err` is the `error` field and
`atype` the `alert_type` field when present; `malformed` when
`response.json()` throws. -/
inductive CreateBody where
  | parsed (err : Option String) (atype : Option String)
  | malformed
deriving DecidableEq, Repr

/-- Outcome of the POST in `createAlertFromDashboard`. -/
inductive CreateOutcome where
  | networkError
  | response (status : Nat) (body : CreateBody)
deriving DecidableEq, Repr

/-- Final content of the `alertMessage` element. -/
inductive CreateView where
  | authRequired
  | emptyPhrase
  | created (atype : String)
  | authFailedMsg
  | errorMsg (msg : String)
  | connectionError
deriving DecidableEq, Repr

/-- The bearer-authenticated POST issued by `createAlertFromDashboard`. -/
def createAlertRequest (token : String) : Request :=
  { method := "POST", endpoint := "/api/create-alert", bearer := some token }

/-- One invocation's visible effects for `createAlertFromDashboard`. -/
structure CreateAlertResult where
  view : CreateView
  storage : Storage
  nav : Option Nav
  calls : List Request
deriving DecidableEq, Repr

/-- Model of `createAlertFromDashboard` in src/scripts.js: no token or empty phrase
blocks before any network call; on an ok response it shows success and
re-runs `fetchAndDisplayAlerts` (whose effects are appended); on 401/422
it shows the auth-failure message and calls `logout()`; other errors only
render a message. -/
def createAlertFromDashboard (st : Storage) (phrase : String)
    (outcome : CreateOutcome) (alertsOutcome : MyAlertsOutcome) :
    CreateAlertResult :=
  match st.access_token with
  | none => { view := .authRequired, storage := st, nav := none, calls := [] }
  | some token =>
    if phrase = "" then
      { view := .emptyPhrase, storage := st, nav := none, calls := [] }
    else
      let req := createAlertRequest token
      match outcome with
      | .networkError =>
        { view := .connectionError, storage := st, nav := none, calls := [req] }
      | .response status body =>
        match body with
        | .malformed =>
          { view := .connectionError, storage := st, nav := none, calls := [req] }
        | .parsed err atype =>
          if responseOk status then
            let sub := fetchAndDisplayAlerts st alertsOutcome
            { view := .created (atype.getD ("undefined")), storage := sub.storage,
              nav := sub.nav, calls := req :: sub.calls }
          else if status = 401 || status = 422 then
            { view := .authFailedMsg, storage := (logout st).1,
              nav := some (logout st).2, calls := [req] }
          else
            { view := .errorMsg (err.getD ("Unknown API Error.")), storage := st,
              nav := none, calls := [req] }

end ScriptsJS

-- ==========================================================
-- Claim C1
-- ==========================================================

/-- Claim C1 counterexample: with both session keys persisted (the repo's
other pages store the user id under the `user_id` key of the same
localStorage), a 401 response on the protected my-alerts call does NOT
remove the user id together with the token, and the navigation effect is a
`location.reload()` of the current page, not a navigation to the login
page — so the claim as stated (token and user id removed together, plus a
navigation to the login surface) is false at this input. -/
theorem c1_counterexample :
    ¬ ((ScriptsJS.fetchAndDisplayAlerts
          { access_token := some ("tok"), user_id := some ("uid") }
          (ScriptsJS.MyAlertsOutcome.response 401
            (ScriptsJS.AlertsBody.errorObj ("Unauthorized")))).storage.user_id
          = none ∧
       (ScriptsJS.fetchAndDisplayAlerts
          { access_token := some ("tok"), user_id := some ("uid") }
          (ScriptsJS.MyAlertsOutcome.response 401
            (ScriptsJS.AlertsBody.errorObj ("Unauthorized")))).nav
          = some (Nav.goto ("login.html"))) := by
  decide

/-- Claim C1 (amended): in src/scripts.js, for every 401 or 422 response
on the protected my-alerts call (whatever its body), and for every 401 or
422 response on the protected create-alert call whose body parses as
JSON, the client removes the bearer token from persisted storage (the
user-id key, which this variant never writes, is left unchanged),
triggers a reload of the current page (rather than a direct navigation to
the login page), and issues no further authenticated call using the old
token — the request trace of the invocation is exactly the one failing
call.  A 401/422 create-alert response with a non-JSON body escapes this:
`response.json()` runs before the status check, so the thrown parse error
lands in the catch block, which only renders a message — the token stays
in storage (leaving later authenticated calls with it possible), no
navigation occurs, though that invocation still issues no further call. -/
theorem c1_theorem (st : Storage) (token phrase : String)
    (body : ScriptsJS.AlertsBody) (err atype : Option String)
    (alertsOutcome : ScriptsJS.MyAlertsOutcome) (status : Nat)
    (htok : st.access_token = some token) (hphrase : phrase ≠ "")
    (hstatus : status = 401 ∨ status = 422) :
    (ScriptsJS.fetchAndDisplayAlerts st
        (ScriptsJS.MyAlertsOutcome.response status body)).storage
      = { st with access_token := none } ∧
    (ScriptsJS.fetchAndDisplayAlerts st
        (ScriptsJS.MyAlertsOutcome.response status body)).nav
      = some Nav.reload ∧
    (ScriptsJS.fetchAndDisplayAlerts st
        (ScriptsJS.MyAlertsOutcome.response status body)).calls
      = [ScriptsJS.myAlertsRequest token] ∧
    (ScriptsJS.createAlertFromDashboard st phrase
        (ScriptsJS.CreateOutcome.response status
          (ScriptsJS.CreateBody.parsed err atype)) alertsOutcome).storage
      = { st with access_token := none } ∧
    (ScriptsJS.createAlertFromDashboard st phrase
        (ScriptsJS.CreateOutcome.response status
          (ScriptsJS.CreateBody.parsed err atype)) alertsOutcome).nav
      = some Nav.reload ∧
    (ScriptsJS.createAlertFromDashboard st phrase
        (ScriptsJS.CreateOutcome.response status
          (ScriptsJS.CreateBody.parsed err atype)) alertsOutcome).calls
      = [ScriptsJS.createAlertRequest token] ∧
    (ScriptsJS.createAlertFromDashboard st phrase
        (ScriptsJS.CreateOutcome.response status
          ScriptsJS.CreateBody.malformed) alertsOutcome).storage = st ∧
    (ScriptsJS.createAlertFromDashboard st phrase
        (ScriptsJS.CreateOutcome.response status
          ScriptsJS.CreateBody.malformed) alertsOutcome).nav = none ∧
    (ScriptsJS.createAlertFromDashboard st phrase
        (ScriptsJS.CreateOutcome.response status
          ScriptsJS.CreateBody.malformed) alertsOutcome).calls
      = [ScriptsJS.createAlertRequest token] := by
  rcases hstatus with h | h <;> subst h <;>
    simp [ScriptsJS.fetchAndDisplayAlerts, ScriptsJS.createAlertFromDashboard,
      ScriptsJS.logout, responseOk, ScriptsJS.myAlertsRequest,
      ScriptsJS.createAlertRequest, htok, hphrase]

/-- Witness for C1 (amended) at a concrete 401 response. -/
theorem c1_witness :
    (ScriptsJS.fetchAndDisplayAlerts
        { access_token := some ("tok"), user_id := some ("uid") }
        (ScriptsJS.MyAlertsOutcome.response 401
          (ScriptsJS.AlertsBody.errorObj ("Unauthorized")))).storage
      = { access_token := none, user_id := some ("uid") } ∧
    (ScriptsJS.fetchAndDisplayAlerts
        { access_token := some ("tok"), user_id := some ("uid") }
        (ScriptsJS.MyAlertsOutcome.response 401
          (ScriptsJS.AlertsBody.errorObj ("Unauthorized")))).nav
      = some Nav.reload ∧
    (ScriptsJS.fetchAndDisplayAlerts
        { access_token := some ("tok"), user_id := some ("uid") }
        (ScriptsJS.MyAlertsOutcome.response 401
          (ScriptsJS.AlertsBody.errorObj ("Unauthorized")))).calls
      = [ScriptsJS.myAlertsRequest ("tok")] ∧
    (ScriptsJS.createAlertFromDashboard
        { access_token := some ("tok"), user_id := some ("uid") }
        ("my phrase")
        (ScriptsJS.CreateOutcome.response 401 ScriptsJS.CreateBody.malformed)
        ScriptsJS.MyAlertsOutcome.networkError).storage
      = { access_token := some ("tok"), user_id := some ("uid") } := by
  have h := c1_theorem
    { access_token := some ("tok"), user_id := some ("uid") }
    ("tok") ("my phrase") (ScriptsJS.AlertsBody.errorObj ("Unauthorized"))
    none none ScriptsJS.MyAlertsOutcome.networkError 401
    rfl (by decide) (Or.inl rfl)
  exact ⟨h.1, h.2.1, h.2.2.1, h.2.2.2.2.2.2.1⟩

-- ==========================================================
-- src/static/api.js  (the API object)  — delete flow
-- ==========================================================

namespace StaticAPIJS

/-- Outcome of a delete fetch. -/
inductive DeleteOutcome where
  | networkError
  | response (status : Nat)
deriving DecidableEq, Repr

/-- The DELETE issued by `API.deleteAlert` (path-parameter style, no
Authorization header in this variant). -/
def deleteAlertRequest (alertId : Nat) : Request :=
  { method := "DELETE", endpoint := "/api/delete-alert/" ++ toString alertId,
    bearer := none }

/-- Model of `API.deleteAlert` in src/static/api.js: issues the DELETE and returns
true for any response (the status is never inspected); only a thrown
fetch error yields false.  Never throws to its caller. -/
def deleteAlert (alertId : Nat) (outcome : DeleteOutcome) :
    Bool × List Request :=
  match outcome with
  | .networkError => (false, [deleteAlertRequest alertId])
  | .response _ => (true, [deleteAlertRequest alertId])

end StaticAPIJS

-- ==========================================================
-- src/static/ui.js — delete flow
-- ==========================================================

namespace StaticUIJS

/-- Effects of one delete interaction: the delete requests issued and the
number of times the alert list is re-fetched afterwards. -/
structure DeleteFlowResult where
  calls : List Request
  refetches : Nat
deriving DecidableEq, Repr

/-- Model of `handleDeleteAlert` in src/static/ui.js: confirmation guard, then
`await API.deleteAlert(id)` (which never throws) followed by one
unconditional `refreshAlerts()`. -/
def handleDeleteAlert (confirmed : Bool) (alertId : Nat)
    (outcome : StaticAPIJS.DeleteOutcome) : DeleteFlowResult :=
  if confirmed then
    { calls := (StaticAPIJS.deleteAlert alertId outcome).2, refetches := 1 }
  else
    { calls := [], refetches := 0 }

end StaticUIJS

-- ==========================================================
-- src/static/scripts.js — delete flow
-- ==========================================================

namespace StaticScriptsJS

/-- Outcome of the POST in `deleteAlert`. -/
inductive DeleteOutcome where
  | networkError
  | response (status : Nat)
deriving DecidableEq, Repr

/-- The POST issued by `deleteAlert` (body `{alert_id}`) with the stored
bearer token, possibly absent. -/
def deleteAlertRequest (token : Option String) : Request :=
  { method := "POST", endpoint := "/api/delete-alert", bearer := token }

/-- Effects of one delete interaction in this variant. -/
structure DeleteFlowResult where
  calls : List Request
  refetches : Nat
deriving DecidableEq, Repr

/-- Model of `deleteAlert` in src/static/scripts.js: confirmation guard, POST to
the delete endpoint, then `fetchAndDisplayAlerts()` only when
`response.ok`; a non-ok status or a thrown fetch error triggers no
re-fetch (the catch only logs). -/
def deleteAlert (confirmed : Bool) (st : Storage) (outcome : DeleteOutcome) :
    DeleteFlowResult :=
  if ¬ confirmed then { calls := [], refetches := 0 }
  else
    let req := deleteAlertRequest st.access_token
    match outcome with
    | .networkError => { calls := [req], refetches := 0 }
    | .response status =>
      if responseOk status then { calls := [req], refetches := 1 }
      else { calls := [req], refetches := 0 }

end StaticScriptsJS

-- ==========================================================
-- Claim C2
-- ==========================================================

/-- Claim C2 counterexample: in src/static/scripts.js, a confirmed delete
whose response has status 500 triggers NO re-fetch of the alert list, so
the claim that every confirmed delete is followed by exactly one re-fetch
whether the call succeeds or fails is false at this input. -/
theorem c2_counterexample :
    ¬ ((StaticScriptsJS.deleteAlert true
          { access_token := some ("tok"), user_id := some ("uid") }
          (StaticScriptsJS.DeleteOutcome.response 500)).refetches = 1) := by
  decide

/-- Claim C2 (amended): in the src/static/ui.js flow every confirmed
delete is followed by exactly one re-fetch of the alert list regardless
of the delete outcome; in the src/static/scripts.js flow the re-fetch
happens exactly once when the delete response is ok, and not at all on a
non-ok response or a network error. -/
theorem c2_theorem (alertId : Nat) (outcome : StaticAPIJS.DeleteOutcome)
    (st : Storage) (status : Nat) :
    (StaticUIJS.handleDeleteAlert true alertId outcome).refetches = 1 ∧
    (StaticScriptsJS.deleteAlert true st
        (StaticScriptsJS.DeleteOutcome.response status)).refetches
      = (if responseOk status then 1 else 0) ∧
    (StaticScriptsJS.deleteAlert true st
        StaticScriptsJS.DeleteOutcome.networkError).refetches = 0 := by
  refine ⟨by simp [StaticUIJS.handleDeleteAlert], ?_,
    by simp [StaticScriptsJS.deleteAlert]⟩
  by_cases h : responseOk status = true <;>
    simp [StaticScriptsJS.deleteAlert, h]

-- ==========================================================
-- src/static/api.js — API.getSignals
-- ==========================================================

namespace StaticAPIJS

/-- Outcome of the signals fetch: a thrown fetch error, or a response
with a status and (when well-formed JSON) the parsed array. -/
inductive SignalsOutcome where
  | networkError
  | response (status : Nat) (parsed : Option (List Signal))
deriving DecidableEq, Repr

/-- Inner try-block of `API.getSignals`: throws on fetch rejection, on a
non-ok status (`if (!res.ok) throw ...`), and on a JSON parse failure. -/
def getSignalsBody : SignalsOutcome → Except String (List Signal)
  | .networkError => .error ("fetch rejected")
  | .response status parsed =>
    if ¬ responseOk status then .error ("Failed to fetch signals")
    else
      match parsed with
      | none => .error ("invalid JSON")
      | some sigs => .ok sigs

/-- Model of `API.getSignals` in src/static/api.js: every thrown error is caught
and an empty array returned; the function never throws to its caller. -/
def getSignals (outcome : SignalsOutcome) : List Signal :=
  match getSignalsBody outcome with
  | .ok sigs => sigs
  | .error _ => []

end StaticAPIJS

-- ==========================================================
-- Signal feed rendering (src/static/ui.js and src/unnamed/part_002)
-- ==========================================================

/-- Final content of the `marketScansList` table: the explicit
"no signals" row, or one row per record (a row is represented by the
record it renders together with its bullish classification; the textual
formatting of the row is determined by these). -/
inductive SignalsView where
  | emptyState
  | rows (items : List (Signal × Bool))
deriving DecidableEq, Repr

namespace StaticUIJS

/-- The bullish test on line 304 of src/static/ui.js:
`s.signal_type.includes('BUY') || s.signal_type.includes('BULL') ||
s.signal_type.includes('GOLDEN')`. -/
def isBull (s : Signal) : Bool :=
  jsIncludes s.signal_type ("BUY") || jsIncludes s.signal_type ("BULL") ||
    jsIncludes s.signal_type ("GOLDEN")

/-- Model of `refreshSignals` in src/static/ui.js composed with `API.getSignals`:
empty data renders the explicit "No active signals found." row, otherwise
one row per record.  This variant has no audio logic. -/
def refreshSignals (outcome : StaticAPIJS.SignalsOutcome) : SignalsView :=
  let data := StaticAPIJS.getSignals outcome
  if data.isEmpty then SignalsView.emptyState
  else SignalsView.rows (data.map (fun s => (s, isBull s)))

end StaticUIJS

namespace Part002

/-- The bullish test in src/unnamed/part_002 (also part_001), which adds
the BREAKOUT keyword. -/
def isBull (s : Signal) : Bool :=
  jsIncludes s.signal_type ("BUY") || jsIncludes s.signal_type ("BULL") ||
    jsIncludes s.signal_type ("BREAKOUT") || jsIncludes s.signal_type ("GOLDEN")

/-- Result of one `refreshSignals` run in src/unnamed/part_002: the
rendered view and whether the audio cue was played. -/
structure RefreshResult where
  view : SignalsView
  audioPlayed : Bool
deriving DecidableEq, Repr

/-- Model of `refreshSignals` in src/unnamed/part_002 (identical in part_001):
`if (!data.length)` renders the explicit empty-state row and returns
before the audio block; otherwise the audio cue plays iff the first
record is less than 60000 ms old, and the rows are rendered. -/
def refreshSignals (now : Int) (data : List Signal) : RefreshResult :=
  match data with
  | [] => { view := SignalsView.emptyState, audioPlayed := false }
  | s0 :: rest =>
    { view := SignalsView.rows ((s0 :: rest).map (fun s => (s, isBull s))),
      audioPlayed := decide (now - s0.detected_at < 60000) }

end Part002

namespace StaticScriptsJS

/-- The fixed keyword list on line 95 of src/static/scripts.js. -/
def bullTerms : List String :=
  ["BULL", "OVERSOLD", "GOLDEN", "PULLBACK", "UPPER_BREAKOUT", "NEW_HIGH"]

/-- The bullish test in `fetchMarketSignals` of src/static/scripts.js:
`bullTerms.some(term => s.signal_type.includes(term))`. -/
def isBullish (s : Signal) : Bool :=
  bullTerms.any (fun term => jsIncludes s.signal_type term)

end StaticScriptsJS

-- ==========================================================
-- Claim C3
-- ==========================================================

/-- Claim C3 (confirmed): a signal-fetch response with zero records makes
the feed render the explicit empty-state row (never a blank view) and
does not trigger the audio cue — in src/unnamed/part_002 the empty check
returns before the audio block for any current time, and in
src/static/ui.js (which has no audio logic) the empty ok-response also
renders the empty state. -/
theorem c3_theorem (now : Int) :
    Part002.refreshSignals now []
      = { view := SignalsView.emptyState, audioPlayed := false } ∧
    StaticUIJS.refreshSignals
        (StaticAPIJS.SignalsOutcome.response 200 (some []))
      = SignalsView.emptyState := by
  exact ⟨rfl, rfl⟩

-- ==========================================================
-- Claim C6
-- ==========================================================

/-- Claim C6 (confirmed): the bullish classification of a signal record is
a pure function of its `signal_type` string alone — two records with equal
`signal_type` classify equally in both embedded variants — and in
src/static/scripts.js it holds exactly when some keyword of the fixed list
`bullTerms` occurs as a contiguous substring of `signal_type`. -/
theorem c6_theorem (s1 s2 : Signal) (h : s1.signal_type = s2.signal_type) :
    StaticScriptsJS.isBullish s1 = StaticScriptsJS.isBullish s2 ∧
    StaticUIJS.isBull s1 = StaticUIJS.isBull s2 ∧
    (StaticScriptsJS.isBullish s1 = true ↔
      ∃ t ∈ StaticScriptsJS.bullTerms,
        ∃ pre post, pre ++ (t.toList ++ post) = s1.signal_type.toList) := by
  refine ⟨?_, ?_, ?_⟩
  · simp only [StaticScriptsJS.isBullish, h]
  · simp only [StaticUIJS.isBull, h]
  · rw [StaticScriptsJS.isBullish, List.any_eq_true]
    constructor
    · rintro ⟨t, ht, hj⟩
      exact ⟨t, ht, (jsIncludes_iff _ t).mp hj⟩
    · rintro ⟨t, ht, hsub⟩
      exact ⟨t, ht, (jsIncludes_iff _ t).mpr hsub⟩

/-- Witness for C6 at two concrete records sharing
`signal_type = "GOLDEN_CROSS"`. -/
theorem c6_witness :
    StaticScriptsJS.isBullish
        { asset := "BTC/USDT", timeframe := "1h",
          signal_type := "GOLDEN_CROSS", detected_at := 0 }
      = StaticScriptsJS.isBullish
        { asset := "ETH/USDT", timeframe := "4h",
          signal_type := "GOLDEN_CROSS", detected_at := 99 } ∧
    StaticUIJS.isBull
        { asset := "BTC/USDT", timeframe := "1h",
          signal_type := "GOLDEN_CROSS", detected_at := 0 }
      = StaticUIJS.isBull
        { asset := "ETH/USDT", timeframe := "4h",
          signal_type := "GOLDEN_CROSS", detected_at := 99 } ∧
    (StaticScriptsJS.isBullish
        { asset := "BTC/USDT", timeframe := "1h",
          signal_type := "GOLDEN_CROSS", detected_at := 0 } = true ↔
      ∃ t ∈ StaticScriptsJS.bullTerms,
        ∃ pre post,
          pre ++ (t.toList ++ post)
            = (String.toList ("GOLDEN_CROSS"))) := by
  exact c6_theorem
    { asset := "BTC/USDT", timeframe := "1h",
      signal_type := "GOLDEN_CROSS", detected_at := 0 }
    { asset := "ETH/USDT", timeframe := "4h",
      signal_type := "GOLDEN_CROSS", detected_at := 99 }
    rfl

-- ==========================================================
-- Claim C8
-- ==========================================================

/-- Claim C8 counterexample: a network failure while fetching signals is
rendered as the very same "no signals" empty state as a genuine
zero-record response — there is no inline error state distinct from the
empty state, because `API.getSignals` swallows the error and returns an
empty array. -/
theorem c8_counterexample :
    StaticUIJS.refreshSignals StaticAPIJS.SignalsOutcome.networkError
      = StaticUIJS.refreshSignals
          (StaticAPIJS.SignalsOutcome.response 200 (some [])) ∧
    StaticUIJS.refreshSignals StaticAPIJS.SignalsOutcome.networkError
      = SignalsView.emptyState := by
  exact ⟨rfl, rfl⟩

/-- Claim C8 (amended): for every network or parse failure while fetching
signals, no exception propagates to the caller — the inner try-block's
error is caught by `API.getSignals`, which returns an empty list — and
the feed renders the same "no signals" empty state used for zero-record
responses, not a distinct inline error state. -/
theorem c8_theorem (outcome : StaticAPIJS.SignalsOutcome) (msg : String)
    (hfail : StaticAPIJS.getSignalsBody outcome = Except.error msg) :
    StaticAPIJS.getSignals outcome = [] ∧
    StaticUIJS.refreshSignals outcome = SignalsView.emptyState := by
  have h1 : StaticAPIJS.getSignals outcome = [] := by
    rw [StaticAPIJS.getSignals, hfail]
  refine ⟨h1, ?_⟩
  rw [StaticUIJS.refreshSignals, h1]
  rfl

/-- Witness for C8 at a concrete thrown fetch error. -/
theorem c8_witness :
    StaticAPIJS.getSignals StaticAPIJS.SignalsOutcome.networkError = [] ∧
    StaticUIJS.refreshSignals StaticAPIJS.SignalsOutcome.networkError
      = SignalsView.emptyState := by
  exact c8_theorem StaticAPIJS.SignalsOutcome.networkError
    ("fetch rejected") rfl

-- ==========================================================
-- Bulk alert creation (src/unnamed/part_001 and src/static/ui.js)
-- ==========================================================

/-- Form state gathered from the bulk-create modal: the checked asset
checkboxes, the checked timeframe checkboxes, the selected condition, the
target-price input value (empty string when blank), and the recurring
checkbox. -/
structure BulkForm where
  selectedAssets : List String
  selectedTFs : List String
  signalType : String
  targetPrice : String
  isRecurring : Bool
deriving DecidableEq, Repr

/-- Result of one bulk submission: blocked by client-side validation with
a message and no call, or submitted with the sequence of awaited create
calls (in loop order) and the final success counter. -/
inductive BulkOutcome (π : Type) where
  | blocked (msg : String)
  | submitted (calls : List π) (successCount : Nat)
deriving DecidableEq, Repr

/-- The create calls of a bulk submission (none when blocked). -/
def callsOf {π : Type} : BulkOutcome π → List π
  | .blocked _ => []
  | .submitted calls _ => calls

/-- The running success counter of the sequential loop: `responses i` is
the truthiness of `res.success` for the i-th awaited call; the counter
after n calls. -/
def countSuccesses (responses : Nat → Bool) : Nat → Nat
  | 0 => 0
  | n + 1 => countSuccesses responses n + (if responses n then 1 else 0)

theorem countSuccesses_le (responses : Nat → Bool) (n : Nat) :
    countSuccesses responses n ≤ n := by
  induction n with
  | zero => simp [countSuccesses]
  | succ k ih =>
    rw [countSuccesses]
    by_cases h : responses k = true <;> simp [h] <;> omega

theorem length_product_loop {α β γ : Type} (as : List α) (bs : List β)
    (g : α → β → γ) :
    (as.flatMap (fun a => bs.map (g a))).length = as.length * bs.length := by
  induction as with
  | nil => simp
  | cons a t ih => simp [ih, Nat.succ_mul, Nat.add_comm]

namespace Part001

/-- The payload assembled per (asset, timeframe) combination in
`submitBulkAlerts` of src/unnamed/part_001 (`targetPrice || null`). -/
structure CreatePayload where
  asset : String
  timeframe : String
  signal_type : String
  target_price : Option String
  is_recurring : Bool
deriving DecidableEq, Repr

def mkPayload (form : BulkForm) (asset tf : String) : CreatePayload :=
  { asset := asset, timeframe := tf, signal_type := form.signalType,
    target_price := if form.targetPrice = "" then none else some form.targetPrice,
    is_recurring := form.isRecurring }

/-- The Cartesian product in loop order: outer `for` over selected assets,
inner `for` over selected timeframes, one awaited create call each. -/
def bulkPayloads (form : BulkForm) : List CreatePayload :=
  form.selectedAssets.flatMap
    (fun a => form.selectedTFs.map (fun tf => mkPayload form a tf))

/-- Model of `submitBulkAlerts` in src/unnamed/part_001: the two validation guards
block with a message before any call; otherwise the nested loop awaits
one `API.createAlert` per combination (this variant's `API.createAlert`
always issues the POST) and counts `res.success` outcomes. -/
def submitBulkAlerts (form : BulkForm) (responses : Nat → Bool) :
    BulkOutcome CreatePayload :=
  if form.selectedAssets.isEmpty || form.selectedTFs.isEmpty then
    .blocked ("Please select at least one Asset and one Timeframe.")
  else if form.signalType = "PRICE_TARGET" ∧ form.targetPrice = "" then
    .blocked ("Please enter a Target Price.")
  else
    .submitted (bulkPayloads form)
      (countSuccesses responses (bulkPayloads form).length)

end Part001

namespace StaticUIJS

/-- The payload in `submitBulkAlerts` of src/static/ui.js, which also
carries `user_id: getUserId()`. -/
structure CreatePayload where
  asset : String
  timeframe : String
  signal_type : String
  target_price : Option String
  is_recurring : Bool
  user_id : Option String
deriving DecidableEq, Repr

def mkPayload (st : Storage) (form : BulkForm) (asset tf : String) :
    CreatePayload :=
  { asset := asset, timeframe := tf, signal_type := form.signalType,
    target_price := if form.targetPrice = "" then none else some form.targetPrice,
    is_recurring := form.isRecurring, user_id := st.user_id }

/-- The Cartesian product in loop order for the src/static/ui.js variant. -/
def bulkPayloads (st : Storage) (form : BulkForm) : List CreatePayload :=
  form.selectedAssets.flatMap
    (fun a => form.selectedTFs.map (fun tf => mkPayload st form a tf))

/-- Model of `submitBulkAlerts` in src/static/ui.js: identical guards and loop; the
calls are the awaited `API.createAlert` invocations in loop order. -/
def submitBulkAlerts (st : Storage) (form : BulkForm) (responses : Nat → Bool) :
    BulkOutcome CreatePayload :=
  if form.selectedAssets.isEmpty || form.selectedTFs.isEmpty then
    .blocked ("Please select at least one Asset and one Timeframe.")
  else if form.signalType = "PRICE_TARGET" ∧ form.targetPrice = "" then
    .blocked ("Please enter a Target Price.")
  else
    .submitted (bulkPayloads st form)
      (countSuccesses responses (bulkPayloads st form).length)

end StaticUIJS

-- ==========================================================
-- Claims C4 and C5
-- ==========================================================

/-- Claim C4 (confirmed): a bulk submission whose condition is
PRICE_TARGET with an empty target-price field is blocked client-side with
a message and issues no create-alert call, in both embedded variants. -/
theorem c4_theorem (form : BulkForm) (responses : Nat → Bool) (st : Storage)
    (hsig : form.signalType = "PRICE_TARGET")
    (hprice : form.targetPrice = "") :
    (∃ msg, Part001.submitBulkAlerts form responses
      = BulkOutcome.blocked msg) ∧
    callsOf (Part001.submitBulkAlerts form responses) = [] ∧
    (∃ msg, StaticUIJS.submitBulkAlerts st form responses
      = BulkOutcome.blocked msg) ∧
    callsOf (StaticUIJS.submitBulkAlerts st form responses) = [] := by
  rw [Part001.submitBulkAlerts, StaticUIJS.submitBulkAlerts]
  split_ifs <;> simp_all [callsOf, hsig, hprice]

/-- Witness for C4 at a concrete form with PRICE_TARGET and a blank
target price. -/
theorem c4_witness :
    (∃ msg, Part001.submitBulkAlerts
        { selectedAssets := ["BTC/USDT"], selectedTFs := ["1h"],
          signalType := "PRICE_TARGET", targetPrice := "",
          isRecurring := false }
        (fun _ => true)
      = BulkOutcome.blocked msg) ∧
    callsOf (Part001.submitBulkAlerts
        { selectedAssets := ["BTC/USDT"], selectedTFs := ["1h"],
          signalType := "PRICE_TARGET", targetPrice := "",
          isRecurring := false }
        (fun _ => true)) = [] ∧
    (∃ msg, StaticUIJS.submitBulkAlerts
        { access_token := some ("tok"), user_id := some ("uid") }
        { selectedAssets := ["BTC/USDT"], selectedTFs := ["1h"],
          signalType := "PRICE_TARGET", targetPrice := "",
          isRecurring := false }
        (fun _ => true)
      = BulkOutcome.blocked msg) ∧
    callsOf (StaticUIJS.submitBulkAlerts
        { access_token := some ("tok"), user_id := some ("uid") }
        { selectedAssets := ["BTC/USDT"], selectedTFs := ["1h"],
          signalType := "PRICE_TARGET", targetPrice := "",
          isRecurring := false }
        (fun _ => true)) = [] := by
  exact c4_theorem
    { selectedAssets := ["BTC/USDT"], selectedTFs := ["1h"],
      signalType := "PRICE_TARGET", targetPrice := "",
      isRecurring := false }
    (fun _ => true)
    { access_token := some ("tok"), user_id := some ("uid") }
    rfl rfl

/-- Claim C5 (confirmed): a bulk creation over M selected assets and N
selected timeframes (M, N ≥ 1) that passes the price-target validation
issues exactly M×N create calls, sequentially in Cartesian loop order
(outer loop over assets, inner over timeframes), and the reported success
counter is at most M×N — in both embedded variants. -/
theorem c5_theorem (form : BulkForm) (responses : Nat → Bool) (st : Storage)
    (hA : form.selectedAssets ≠ []) (hT : form.selectedTFs ≠ [])
    (hV : ¬ (form.signalType = "PRICE_TARGET" ∧ form.targetPrice = "")) :
    Part001.submitBulkAlerts form responses
      = BulkOutcome.submitted (Part001.bulkPayloads form)
          (countSuccesses responses (Part001.bulkPayloads form).length) ∧
    (Part001.bulkPayloads form).length
      = form.selectedAssets.length * form.selectedTFs.length ∧
    countSuccesses responses (Part001.bulkPayloads form).length
      ≤ form.selectedAssets.length * form.selectedTFs.length ∧
    StaticUIJS.submitBulkAlerts st form responses
      = BulkOutcome.submitted (StaticUIJS.bulkPayloads st form)
          (countSuccesses responses (StaticUIJS.bulkPayloads st form).length) ∧
    (StaticUIJS.bulkPayloads st form).length
      = form.selectedAssets.length * form.selectedTFs.length := by
  have hlen1 : (Part001.bulkPayloads form).length
      = form.selectedAssets.length * form.selectedTFs.length := by
    rw [Part001.bulkPayloads]
    exact length_product_loop form.selectedAssets form.selectedTFs
      (Part001.mkPayload form)
  have hlen2 : (StaticUIJS.bulkPayloads st form).length
      = form.selectedAssets.length * form.selectedTFs.length := by
    rw [StaticUIJS.bulkPayloads]
    exact length_product_loop form.selectedAssets form.selectedTFs
      (StaticUIJS.mkPayload st form)
  have hle : countSuccesses responses (Part001.bulkPayloads form).length
      ≤ form.selectedAssets.length * form.selectedTFs.length := by
    calc countSuccesses responses (Part001.bulkPayloads form).length
        ≤ (Part001.bulkPayloads form).length :=
          countSuccesses_le responses (Part001.bulkPayloads form).length
      _ = form.selectedAssets.length * form.selectedTFs.length := hlen1
  have hguard1 : ¬ (form.selectedAssets.isEmpty || form.selectedTFs.isEmpty)
      = true := by
    simp [List.isEmpty_iff, hA, hT]
  refine ⟨?_, hlen1, hle, ?_, hlen2⟩
  · rw [Part001.submitBulkAlerts]
    simp [hguard1, hV]
  · rw [StaticUIJS.submitBulkAlerts]
    simp [hguard1, hV]

/-- Witness for C5 at a concrete 2-asset × 2-timeframe form where the
second and fourth calls fail. -/
theorem c5_witness :
    Part001.submitBulkAlerts
        { selectedAssets := ["BTC/USDT", "ETH/USDT"],
          selectedTFs := ["1h", "4h"], signalType := "GOLDEN_CROSS",
          targetPrice := "", isRecurring := false }
        (fun i => decide (i % 2 = 0))
      = BulkOutcome.submitted
          (Part001.bulkPayloads
            { selectedAssets := ["BTC/USDT", "ETH/USDT"],
              selectedTFs := ["1h", "4h"], signalType := "GOLDEN_CROSS",
              targetPrice := "", isRecurring := false })
          (countSuccesses (fun i => decide (i % 2 = 0))
            (Part001.bulkPayloads
              { selectedAssets := ["BTC/USDT", "ETH/USDT"],
                selectedTFs := ["1h", "4h"], signalType := "GOLDEN_CROSS",
                targetPrice := "", isRecurring := false }).length) ∧
    (Part001.bulkPayloads
        { selectedAssets := ["BTC/USDT", "ETH/USDT"],
          selectedTFs := ["1h", "4h"], signalType := "GOLDEN_CROSS",
          targetPrice := "", isRecurring := false }).length = 2 * 2 ∧
    countSuccesses (fun i => decide (i % 2 = 0))
        (Part001.bulkPayloads
          { selectedAssets := ["BTC/USDT", "ETH/USDT"],
            selectedTFs := ["1h", "4h"], signalType := "GOLDEN_CROSS",
            targetPrice := "", isRecurring := false }).length ≤ 2 * 2 ∧
    StaticUIJS.submitBulkAlerts
        { access_token := some ("tok"), user_id := some ("uid") }
        { selectedAssets := ["BTC/USDT", "ETH/USDT"],
          selectedTFs := ["1h", "4h"], signalType := "GOLDEN_CROSS",
          targetPrice := "", isRecurring := false }
        (fun i => decide (i % 2 = 0))
      = BulkOutcome.submitted
          (StaticUIJS.bulkPayloads
            { access_token := some ("tok"), user_id := some ("uid") }
            { selectedAssets := ["BTC/USDT", "ETH/USDT"],
              selectedTFs := ["1h", "4h"], signalType := "GOLDEN_CROSS",
              targetPrice := "", isRecurring := false })
          (countSuccesses (fun i => decide (i % 2 = 0))
            (StaticUIJS.bulkPayloads
              { access_token := some ("tok"), user_id := some ("uid") }
              { selectedAssets := ["BTC/USDT", "ETH/USDT"],
                selectedTFs := ["1h", "4h"], signalType := "GOLDEN_CROSS",
                targetPrice := "", isRecurring := false }).length) ∧
    (StaticUIJS.bulkPayloads
        { access_token := some ("tok"), user_id := some ("uid") }
        { selectedAssets := ["BTC/USDT", "ETH/USDT"],
          selectedTFs := ["1h", "4h"], signalType := "GOLDEN_CROSS",
          targetPrice := "", isRecurring := false }).length = 2 * 2 := by
  exact c5_theorem
    { selectedAssets := ["BTC/USDT", "ETH/USDT"],
      selectedTFs := ["1h", "4h"], signalType := "GOLDEN_CROSS",
      targetPrice := "", isRecurring := false }
    (fun i => decide (i % 2 = 0))
    { access_token := some ("tok"), user_id := some ("uid") }
    (by decide) (by decide) (by decide)

-- ==========================================================
-- Config bootstrap (src/static/api.js dashboard section; the cited
-- fetchConfig is identical in src/static/scripts.js)
-- ==========================================================

namespace StaticAPIJS

/-- The parsed `/api/config` body: credential fields may be null. -/
structure ConfigBody where
  SUPABASE_URL : Option String
  SUPABASE_KEY : Option String
deriving DecidableEq, Repr

/-- Outcome of the config fetch. -/
inductive ConfigOutcome where
  | networkError
  | response (status : Nat) (parsed : Option ConfigBody)
deriving DecidableEq, Repr

/-- Inner try-block of `fetchConfig`: throws on fetch rejection, on a
non-ok status (`if (!response.ok) throw ...`), and on a parse failure. -/
def fetchConfigBody : ConfigOutcome → Except String ConfigBody
  | .networkError => .error ("fetch rejected")
  | .response status parsed =>
    if ¬ responseOk status then .error ("HTTP error")
    else
      match parsed with
      | none => .error ("invalid JSON")
      | some cfg => .ok cfg

/-- Model of `fetchConfig` in src/static/api.js (identical in
src/static/scripts.js lines 16-25): the catch returns the
null-credential object rather than rethrowing. -/
def fetchConfig (o : ConfigOutcome) : ConfigBody :=
  match fetchConfigBody o with
  | .ok cfg => cfg
  | .error _ => { SUPABASE_URL := none, SUPABASE_KEY := none }

/-- Model of `initializeSupabase` in src/static/api.js: returns true only when
both credentials are present, the `supabase` global is defined, and
`createClient` does not throw (`createClientOk`); every other path —
including a thrown `createClient` — falls through to `return false`. -/
def initializeSupabase (o : ConfigOutcome)
    (supabaseDefined createClientOk : Bool) : Bool :=
  match (fetchConfig o).SUPABASE_URL, (fetchConfig o).SUPABASE_KEY,
      supabaseDefined with
  | some _, some _, true => createClientOk
  | _, _, _ => false

/-- A resolved auth session (token plus user id). -/
structure Session where
  access_token : String
  user_id : String
deriving DecidableEq, Repr

/-- The auth-provider collaborator: the active session the client would
report, and the user lookup for a persisted token. -/
structure AuthEnv where
  getSessionResult : Option Session
  getUserResult : String → Option String

/-- Model of `checkSupabaseSession` in src/static/api.js: returns null immediately
when initialization failed; otherwise an active client session wins and
both keys are persisted; else a persisted token is validated via
`getUser`, persisting the resolved user id; else null. -/
def checkSupabaseSession (o : ConfigOutcome)
    (supabaseDefined createClientOk : Bool) (env : AuthEnv) (st : Storage) :
    Option Session × Storage :=
  if initializeSupabase o supabaseDefined createClientOk = false then
    (none, st)
  else
    match env.getSessionResult with
    | some session =>
      (some session,
        { st with access_token := some session.access_token,
                  user_id := some session.user_id })
    | none =>
      match st.access_token with
      | some token =>
        match env.getUserResult token with
        | some uid =>
          (some { access_token := token, user_id := uid },
            { st with user_id := some uid })
        | none => (none, st)
      | none => (none, st)

end StaticAPIJS

-- ==========================================================
-- Claim C7
-- ==========================================================

/-- Claim C7 (confirmed): when the remote config fetch fails (network
error, non-OK status, or parse failure), `fetchConfig` does not throw to
its caller — the catch returns null credentials — `initializeSupabase`
reports failure, and `checkSupabaseSession` resolves to no session with
storage untouched (unauthenticated mode); an auth-client initialization
failure (`createClient` throwing) degrades the same way for any config. -/
theorem c7_theorem (o : StaticAPIJS.ConfigOutcome) (msg : String)
    (sd cok : Bool) (env : StaticAPIJS.AuthEnv) (st : Storage)
    (hfail : StaticAPIJS.fetchConfigBody o = Except.error msg) :
    StaticAPIJS.fetchConfig o
      = { SUPABASE_URL := none, SUPABASE_KEY := none } ∧
    StaticAPIJS.initializeSupabase o sd cok = false ∧
    StaticAPIJS.checkSupabaseSession o sd cok env st = (none, st) ∧
    (∀ o2 sd2 env2 st2,
      StaticAPIJS.checkSupabaseSession o2 sd2 false env2 st2 = (none, st2)) := by
  have h1 : StaticAPIJS.fetchConfig o
      = { SUPABASE_URL := none, SUPABASE_KEY := none } := by
    rw [StaticAPIJS.fetchConfig, hfail]
  have h2 : StaticAPIJS.initializeSupabase o sd cok = false := by
    unfold StaticAPIJS.initializeSupabase
    rw [h1]
  have h4 : ∀ o2 sd2 env2 st2,
      StaticAPIJS.checkSupabaseSession o2 sd2 false env2 st2 = (none, st2) := by
    intro o2 sd2 env2 st2
    have hinit : StaticAPIJS.initializeSupabase o2 sd2 false = false := by
      unfold StaticAPIJS.initializeSupabase
      cases hu : (StaticAPIJS.fetchConfig o2).SUPABASE_URL <;>
        cases hk : (StaticAPIJS.fetchConfig o2).SUPABASE_KEY <;>
        cases sd2 <;> rfl
    simp [StaticAPIJS.checkSupabaseSession, hinit]
  exact ⟨h1, h2, by simp [StaticAPIJS.checkSupabaseSession, h2], h4⟩

/-- Witness for C7 at a concrete thrown config fetch. -/
theorem c7_witness :
    StaticAPIJS.fetchConfig StaticAPIJS.ConfigOutcome.networkError
      = { SUPABASE_URL := none, SUPABASE_KEY := none } ∧
    StaticAPIJS.initializeSupabase StaticAPIJS.ConfigOutcome.networkError
        true true = false ∧
    StaticAPIJS.checkSupabaseSession StaticAPIJS.ConfigOutcome.networkError
        true true { getSessionResult := none, getUserResult := fun _ => none }
        { access_token := some ("tok"), user_id := some ("uid") }
      = (none, { access_token := some ("tok"), user_id := some ("uid") }) ∧
    (∀ o2 sd2 env2 st2,
      StaticAPIJS.checkSupabaseSession o2 sd2 false env2 st2
        = (none, st2)) := by
  exact c7_theorem StaticAPIJS.ConfigOutcome.networkError
    ("fetch rejected") true true
    { getSessionResult := none, getUserResult := fun _ => none }
    { access_token := some ("tok"), user_id := some ("uid") } rfl

-- ==========================================================
-- Chart launcher (src/static/ui.js loadChartView, src/unnamed/part_002
-- openChart)
-- ==========================================================

/-- JavaScript object-literal lookup `tbl[key]` over a fixed table. -/
def tblLookup {α : Type} (tbl : List (String × α)) (key : String) :
    Option α :=
  (tbl.find? (fun p => p.1 == key)).map (fun p => p.2)

/-- JavaScript `STUDY_MAP[signalType] || []`. -/
def studyLookup (tbl : List (String × List String)) (key : String) :
    List String :=
  (tblLookup tbl key).getD []

/-- The configuration handed to the charting widget. -/
structure ChartConfig where
  symbol : String
  interval : String
  studies : List String
deriving DecidableEq, Repr

namespace StaticUIJS

/-- Model of `STUDY_MAP` in src/static/ui.js (lines 37-42). -/
def STUDY_MAP : List (String × List String) :=
  [("RSI_OVERSOLD", ["RSI@tv-basicstudies"]),
   ("GOLDEN_CROSS", ["MASimple@tv-basicstudies", "MASimple@tv-basicstudies"]),
   ("STRATEGY_UNLOCK_SHORT", ["BB@tv-basicstudies"]),
   ("STRATEGY_BULLISH_200MA_RSI",
     ["MASimple@tv-basicstudies", "RSI@tv-basicstudies"])]

/-- The inline interval table in `loadChartView`. -/
def intervalMap : List (String × String) :=
  [("15m", "15"), ("1h", "60"), ("4h", "240"), ("1d", "D"), ("1w", "W")]

/-- Model of `loadChartView` in src/static/ui.js: appends the USDT suffix when the
upper-cased symbol lacks it; a null interval falls back to the timeframe
dropdown (default 240); the interval tag is mapped through the fixed
table with default 240; the indicator overlays come solely from
`STUDY_MAP[signalType] || []`. -/
def loadChartView (symbol : String) (interval : Option String)
    (dropdownValue : Option String) (signalType : String) : ChartConfig :=
  let sym :=
    if symbol ≠ "" ∧ jsIncludes symbol.toUpper ("USDT") = false then
      symbol.toUpper ++ "USDT"
    else symbol
  let itv :=
    match interval with
    | some i => i
    | none =>
      match dropdownValue with
      | some v => v
      | none => "240"
  { symbol := "BINANCE:" ++ sym,
    interval := (tblLookup intervalMap itv).getD ("240"),
    studies := studyLookup STUDY_MAP signalType }

end StaticUIJS

namespace Part002

/-- Model of `STUDY_MAP` in src/unnamed/part_002 (lines 31-43). -/
def STUDY_MAP : List (String × List String) :=
  [("RSI_OVERSOLD", ["RSI@tv-basicstudies"]),
   ("RSI_OVERBOUGHT", ["RSI@tv-basicstudies"]),
   ("MACD_BULL_CROSS", ["MACD@tv-basicstudies"]),
   ("MACD_BEAR_CROSS", ["MACD@tv-basicstudies"]),
   ("BB_SQUEEZE", ["BB@tv-basicstudies"]),
   ("GOLDEN_CROSS", ["MASimple@tv-basicstudies", "MASimple@tv-basicstudies"]),
   ("DEATH_CROSS", ["MASimple@tv-basicstudies", "MASimple@tv-basicstudies"]),
   ("SNIPER_BUY_REVERSAL", ["RSI@tv-basicstudies", "BB@tv-basicstudies"]),
   ("SNIPER_SELL_REJECTION", ["RSI@tv-basicstudies", "BB@tv-basicstudies"]),
   ("MOMENTUM_BREAKOUT", ["MACD@tv-basicstudies"]),
   ("STRATEGY_UNLOCK_SHORT", ["BB@tv-basicstudies"])]

/-- Model of `TF_MAP` in src/unnamed/part_002 (line 45). -/
def TF_MAP : List (String × String) :=
  [("15m", "15"), ("1h", "60"), ("4h", "240"), ("1d", "D")]

/-- Model of `openChart` in src/unnamed/part_002: the widget symbol gets the USDT
suffix, the interval is `TF_MAP[timeframe] || '60'`, and the overlays are
`STUDY_MAP[signalType] || []` (the NONE sentinel is absent from the
table). -/
def openChart (symbol : String) (timeframe : String) (signalType : String) :
    ChartConfig :=
  { symbol := "BINANCE:" ++ symbol ++ "USDT",
    interval := (tblLookup TF_MAP timeframe).getD ("60"),
    studies := studyLookup STUDY_MAP signalType }

end Part002

-- ==========================================================
-- Claim C9
-- ==========================================================

/-- Claim C9 (confirmed): in both chart launchers the indicator overlays
passed to the widget are exactly `STUDY_MAP[signalType] || []` —
independent of symbol and interval — and any signal type that is not a
key of the table (the NONE sentinel included) yields an empty overlay
list. -/
theorem c9_theorem (symbol timeframe sigType : String)
    (interval dropdownValue : Option String)
    (h1 : ∀ p ∈ StaticUIJS.STUDY_MAP, p.1 ≠ sigType)
    (h2 : ∀ p ∈ Part002.STUDY_MAP, p.1 ≠ sigType) :
    (StaticUIJS.loadChartView symbol interval dropdownValue sigType).studies
      = studyLookup StaticUIJS.STUDY_MAP sigType ∧
    (Part002.openChart symbol timeframe sigType).studies
      = studyLookup Part002.STUDY_MAP sigType ∧
    (StaticUIJS.loadChartView symbol interval dropdownValue sigType).studies
      = [] ∧
    (Part002.openChart symbol timeframe sigType).studies = [] ∧
    studyLookup StaticUIJS.STUDY_MAP ("NONE") = [] ∧
    studyLookup Part002.STUDY_MAP ("NONE") = [] := by
  have hfind1 : StaticUIJS.STUDY_MAP.find? (fun p => p.1 == sigType) = none := by
    rw [List.find?_eq_none]
    intro p hp
    simpa using h1 p hp
  have hfind2 : Part002.STUDY_MAP.find? (fun p => p.1 == sigType) = none := by
    rw [List.find?_eq_none]
    intro p hp
    simpa using h2 p hp
  refine ⟨rfl, rfl, ?_, ?_, by decide, by decide⟩
  · simp [StaticUIJS.loadChartView, studyLookup, tblLookup, hfind1]
  · simp [Part002.openChart, studyLookup, tblLookup, hfind2]

/-- Witness for C9 at the NONE sentinel. -/
theorem c9_witness :
    (StaticUIJS.loadChartView ("BTC") (some ("1h")) none ("NONE")).studies
      = studyLookup StaticUIJS.STUDY_MAP ("NONE") ∧
    (Part002.openChart ("BTC") ("1h") ("NONE")).studies
      = studyLookup Part002.STUDY_MAP ("NONE") ∧
    (StaticUIJS.loadChartView ("BTC") (some ("1h")) none ("NONE")).studies
      = [] ∧
    (Part002.openChart ("BTC") ("1h") ("NONE")).studies = [] ∧
    studyLookup StaticUIJS.STUDY_MAP ("NONE") = [] ∧
    studyLookup Part002.STUDY_MAP ("NONE") = [] := by
  exact c9_theorem ("BTC") ("1h") ("NONE") (some ("1h")) none
    (by decide) (by decide)

-- ==========================================================
-- my-alerts fetch guards (src/static/api.js and src/unnamed/part_002)
-- ==========================================================

/-- A my-alerts JSON body as returned to callers: an alert array or an
`{error: ...}` object. -/
inductive AlertsJson where
  | arr (items : List Alert)
  | errObj (msg : String)
deriving DecidableEq, Repr

namespace StaticAPIJS

/-- Model of `API.getMyAlerts` in src/static/api.js: without a stored user id it
returns an empty array immediately, issuing no request; otherwise it
issues the user-scoped GET and returns the parsed body, or an empty
array when the fetch or parse throws (`outcome = none`). -/
def getMyAlerts (st : Storage) (outcome : Option AlertsJson) :
    AlertsJson × List Request :=
  match st.user_id with
  | none => (AlertsJson.arr [], [])
  | some uid =>
    let req : Request :=
      { method := "GET", endpoint := "/api/my-alerts?user_id=" ++ uid,
        bearer := none }
    match outcome with
    | none => (AlertsJson.arr [], [req])
    | some body => (body, [req])

end StaticAPIJS

namespace Part002

/-- Model of `API.getMyAlerts` in src/unnamed/part_002: keyed on the stored token
instead; without it, an empty array and no request; with it, a
bearer-authenticated GET. -/
def getMyAlerts (st : Storage) (outcome : Option AlertsJson) :
    AlertsJson × List Request :=
  match st.access_token with
  | none => (AlertsJson.arr [], [])
  | some token =>
    let req : Request :=
      { method := "GET", endpoint := "/api/my-alerts",
        bearer := some token }
    match outcome with
    | none => (AlertsJson.arr [], [req])
    | some body => (body, [req])

end Part002

-- ==========================================================
-- Claim C10
-- ==========================================================

/-- Claim C10 (confirmed): with no persisted user id (src/static/api.js)
or no persisted token (src/unnamed/part_002), `API.getMyAlerts` returns
an empty list immediately and issues no network request, whatever the
network would have answered. -/
theorem c10_theorem (st1 st2 : Storage) (o1 o2 : Option AlertsJson)
    (h1 : st1.user_id = none) (h2 : st2.access_token = none) :
    StaticAPIJS.getMyAlerts st1 o1 = (AlertsJson.arr [], []) ∧
    Part002.getMyAlerts st2 o2 = (AlertsJson.arr [], []) := by
  constructor
  · simp [StaticAPIJS.getMyAlerts, h1]
  · simp [Part002.getMyAlerts, h2]

/-- Witness for C10 at concrete unauthenticated storage. -/
theorem c10_witness :
    StaticAPIJS.getMyAlerts { access_token := some ("tok"), user_id := none }
        (some (AlertsJson.arr [])) = (AlertsJson.arr [], []) ∧
    Part002.getMyAlerts { access_token := none, user_id := some ("uid") }
        (some (AlertsJson.arr [])) = (AlertsJson.arr [], []) := by
  exact c10_theorem
    { access_token := some ("tok"), user_id := none }
    { access_token := none, user_id := some ("uid") }
    (some (AlertsJson.arr [])) (some (AlertsJson.arr []))
    rfl rfl
